import Mathlib

/-!
Verification development for the client-side data-orchestration layer of a
course-viewing experience: fetch orchestration over concurrently-settled
requests (`fetchTab`, `resetDeadlines` of `src/course-home/data/thunks.js`),
the normalized Entity Store with create-or-merge writes, the per-resource
fetch-status lifecycle, and the optimistic position save with rollback.

The thunks of `thunks.js` are embedded directly from the source.  The
courseware thunks (`fetchCourse`, `fetchSequence`, `saveSequencePosition`) and
the model store appear in the repository only through their integration tests,
so those definitions are modelled from the specification's contracts and each
carries a doc comment saying so.
-/

/-- JSON-like field values carried by API payloads and entity records. -/
inductive Value where
  | vStr (s : String)
  | vNat (n : Nat)
  | vBool (b : Bool)
  | vNull
  | vIds (ids : List String)
  | vObj (fields : List (String × Value))

/-- An entity record or payload: an ordered field map, as a JS object. -/
abbrev Record := List (String × Value)

/-- First-match association-list lookup, the JS property read. -/
def lookupF {α : Type} (l : List (String × α)) (key : String) : Option α :=
  match l with
  | [] => none
  | kv :: rest => if kv.1 = key then some kv.2 else lookupF rest key

/-- Left-biased choice on options: the first `some` wins. -/
def oOr {α : Type} (a b : Option α) : Option α :=
  match a with
  | some v => some v
  | none => b

/-- JS object spread of `new` onto `old`: keys of `old` keep their place but
take the value from `new` when `new` also has the key; keys only in `new` are
appended in order.  New values win on conflict. -/
def mergeRecord (old new : Record) : Record :=
  old.map (fun kv => (kv.1, (lookupF new kv.1).getD kv.2))
    ++ new.filter (fun kv => (lookupF old kv.1).isNone)

/-- One type's partition of the Entity Store: id to record. -/
abbrev Table := List (String × Record)

/-- The Entity Store: entity type to table of records. -/
abbrev Store := List (String × Table)

/-- Insert-or-update on an association list: rewrites the first binding of
`key` through `f`, or appends `f none` when `key` is absent. -/
def upsert {α : Type} (l : List (String × α)) (key : String) (f : Option α → α) :
    List (String × α) :=
  match l with
  | [] => [(key, f none)]
  | kv :: rest =>
    if kv.1 = key then (kv.1, f (some kv.2)) :: rest else kv :: upsert rest key f

/-- Modelled from the spec: the Entity Store write
`merge(entityType, id, partialRecord)` (the model-store module itself is not
among the repository's files; only its callers and tests are).  It creates the
record if absent, otherwise shallow-merges fields with new values overwriting
old, and never fails. -/
def mergeEntity (s : Store) (entityType i : String) (p : Record) : Store :=
  upsert s entityType (fun tbl =>
    upsert (tbl.getD []) i (fun r => mergeRecord (r.getD []) p))

/-- Modelled from the spec: `get(entityType, id)` returns the current record
or an absent marker, and never fails. -/
def getEntity (s : Store) (entityType i : String) : Option Record :=
  (lookupF s entityType).bind (fun tbl => lookupF tbl i)

/-- Read one field of one stored entity. -/
def getField (s : Store) (entityType i k : String) : Option Value :=
  (getEntity s entityType i).bind (fun r => lookupF r k)

/-- One settled promise outcome, as `Promise.allSettled` reports it. -/
inductive Outcome (α : Type) where
  | fulfilled (value : α)
  | rejected (reason : String)

/-- Whether the settled outcome's `status` field reads `fulfilled`. -/
def Outcome.isFulfilled {α : Type} : Outcome α → Bool
  | .fulfilled _ => true
  | .rejected _ => false

/-- Observable effects dispatched or performed by the thunks: the pending
dispatch, model-store writes, the two terminal status dispatches, calls to the
logging collaborator, and `resetDeadlines` dispatching its refetch thunk. -/
inductive Event where
  | fetchTabRequest (courseId : String)
  | addModel (modelType : String) (model : Record)
  | fetchTabSuccess (courseId : String)
  | fetchTabFailure (courseId : String)
  | logError (reason : String)
  | dispatchGetTabData (courseId : String)

/-- The observable behaviour of one dispatched async thunk: the events emitted
before the thunk's returned promise resolves, and the events of the detached
continuation that runs only after the in-flight requests settle. -/
structure ThunkRun where
  syncEvents : List Event
  deferredEvents : List Event

/-- All events of a run, the synchronous ones first. -/
def ThunkRun.allEvents (r : ThunkRun) : List Event :=
  r.syncEvents ++ r.deferredEvents

/-- `fetchTab` of `src/course-home/data/thunks.js`, with the two request
outcomes as inputs.  The body dispatches `fetchTabRequest` and returns; a
detached `Promise.allSettled([...]).then` continuation then writes each
fulfilled payload via `addModel` (the payload spread onto a record holding
`id = courseId`), logs each rejection's reason, and dispatches
`fetchTabSuccess` when both requests fulfilled, else `fetchTabFailure`. -/
def fetchTab (courseId tab : String) (metadataResult tabDataResult : Outcome Record) :
    ThunkRun :=
  let fetchedMetadata := metadataResult.isFulfilled
  let fetchedTabData := tabDataResult.isFulfilled
  { syncEvents := [Event.fetchTabRequest courseId]
    deferredEvents :=
      (match metadataResult with
        | .fulfilled v =>
          [Event.addModel "courses" (mergeRecord [("id", Value.vStr courseId)] v)]
        | .rejected e => [Event.logError e]) ++
      (match tabDataResult with
        | .fulfilled v =>
          [Event.addModel tab (mergeRecord [("id", Value.vStr courseId)] v)]
        | .rejected e => [Event.logError e]) ++
      [if fetchedMetadata && fetchedTabData
        then Event.fetchTabSuccess courseId
        else Event.fetchTabFailure courseId] }

/-- `resetDeadlines` of `src/course-home/data/thunks.js`: calls
`updateCourseDeadlines(courseId)` and in a `.then` continuation with no
rejection handler dispatches `getTabData(courseId)`; when the update request
rejects, the continuation never runs and nothing at all is dispatched or
logged. -/
def resetDeadlines (courseId : String) (updateResult : Outcome Unit) : ThunkRun :=
  { syncEvents := []
    deferredEvents :=
      match updateResult with
      | .fulfilled _ => [Event.dispatchGetTabData courseId]
      | .rejected _ => [] }

/-- Whether an event is a terminal status dispatch. -/
def Event.isTerminalStatus : Event → Bool
  | .fetchTabSuccess _ => true
  | .fetchTabFailure _ => true
  | _ => false

/-- Whether an event writes to the Entity Store. -/
def Event.isStoreWrite : Event → Bool
  | .addModel _ _ => true
  | _ => false

/-- Whether an event is a call to the logging collaborator. -/
def Event.isLogCall : Event → Bool
  | .logError _ => true
  | _ => false

/-- Modelled from the spec: the per-resource fetch lifecycle states. -/
inductive FetchStatus where
  | idle
  | pending
  | loaded
  | denied
  | failed
deriving DecidableEq

/-- Modelled from the spec: how the Resource Status Tracker consumes the
dispatched events — `fetchTabRequest` enters `pending`, `fetchTabSuccess` and
`fetchTabFailure` are the terminal writes; other events leave it unchanged. -/
def statusStep (st : FetchStatus) (e : Event) : FetchStatus :=
  match e with
  | .fetchTabRequest _ => .pending
  | .fetchTabSuccess _ => .loaded
  | .fetchTabFailure _ => .failed
  | _ => st

/-- The status after a whole event trace, starting from `idle`. -/
def runStatus (events : List Event) : FetchStatus :=
  events.foldl statusStep .idle

/-- The id under which `addModel` files a model: the payload's `id` field. -/
def modelId (r : Record) : String :=
  match lookupF r "id" with
  | some (Value.vStr i) => i
  | _ => ""

/-- Modelled from the spec: how dispatched events act on the Entity Store —
`addModel` create-or-merges under the payload's own id; status dispatches, log
calls and thunk dispatches do not touch the store. -/
def applyEvent (s : Store) (e : Event) : Store :=
  match e with
  | .addModel t m => mergeEntity s t (modelId m) m
  | _ => s

/-- The store after a whole event trace. -/
def applyEvents (s : Store) (events : List Event) : Store :=
  events.foldl applyEvent s

/-! ## The optimistic position save -/

/-- Modelled from the spec: `saveSequencePosition(courseId, sequenceId,
newValue)` (the courseware thunk is present in the repository only through its
integration tests).  It reads the current position from the store as the
previous value, merges the new value immediately (optimistic apply), issues
the POST, and on rejection merges the previous value back for that field and
reports the error to the logging collaborator; on fulfillment the applied
value stands.  Returns the settled store and the log calls made. -/
def saveSequencePosition (s : Store) (courseId sequenceId : String)
    (newValue : Value) (postResult : Outcome Unit) : Store × List String :=
  let previousValue := getField s "sequences" sequenceId "position"
  let applied := mergeEntity s "sequences" sequenceId
    [("id", Value.vStr sequenceId), ("position", newValue)]
  match postResult with
  | .fulfilled _ => (applied, [])
  | .rejected e =>
    (mergeEntity applied "sequences" sequenceId
      [("id", Value.vStr sequenceId), ("position", previousValue.getD Value.vNull)],
     [e])

/-! ## The course fetch and the denial classification -/

/-- Whether a metadata field value signals denied access: an access-check
object whose hasAccess field is false. -/
def accessDeniedValue : Value → Bool
  | .vObj fields =>
    (match lookupF fields "hasAccess" with
      | some (.vBool b) => !b
      | _ => false)
  | _ => false

/-- Modelled from the spec: the authorization-denial signal carried by a
normalized course metadata payload — its canLoadCourseware access-check field
reports no access. -/
def hasDeniedSignal (meta : Record) : Bool :=
  match lookupF meta "canLoadCourseware" with
  | some v => accessDeniedValue v
  | none => false

/-- One normalized store write arising from the block-tree payload: the entity
type the block normalizes under, the block's own id, and its record. -/
abbrev BlockWrite := String × String × Record

/-- Modelled from the spec: `fetchCourse(courseId)` (the courseware thunk is
present in the repository only through its integration tests).  It issues the
metadata and block-tree requests concurrently and waits for both to settle;
each fulfilled payload is written — the metadata spread onto a record holding
id = courseId under `courses`, each block under its own entity type and id —
and each rejection is logged; both requests fulfilled classify as `denied`
when the metadata carries the denial signal and `loaded` otherwise, while any
rejection classifies as `failed`. -/
def fetchCourse (s : Store) (courseId : String) (metadataResult : Outcome Record)
    (blocksResult : Outcome (List BlockWrite)) :
    FetchStatus × Store × List String :=
  let s1 := match metadataResult with
    | .fulfilled meta =>
      mergeEntity s "courses" courseId (mergeRecord [("id", Value.vStr courseId)] meta)
    | .rejected _ => s
  let s2 := match blocksResult with
    | .fulfilled blocks =>
      blocks.foldl (fun st bw => mergeEntity st bw.1 bw.2.1 bw.2.2) s1
    | .rejected _ => s1
  let logs :=
    (match metadataResult with | .fulfilled _ => [] | .rejected e => [e]) ++
    (match blocksResult with | .fulfilled _ => [] | .rejected e => [e])
  let status := match metadataResult, blocksResult with
    | .fulfilled meta, .fulfilled _ =>
      if hasDeniedSignal meta then FetchStatus.denied else FetchStatus.loaded
    | _, _ => FetchStatus.failed
  (status, s2, logs)

/-! ## The sequence fetch merging onto course-created entities -/

/-- Modelled from the spec: the store writes of a fulfilled
`fetchSequence(sequenceId)` (the courseware thunk is present in the repository
only through its integration tests) — the normalized sequence metadata, with
fields such as gatedContent and activeUnitIndex, merges onto the sequence
record under its own id, and the item user-state payload, with fields such as
complete and bookmarked, merges onto the unit record under its own id. -/
def fetchSequenceApply (s : Store) (sequenceId : String) (seqPayload : Record)
    (unitId : String) (unitPayload : Record) : Store :=
  mergeEntity (mergeEntity s "sequences" sequenceId seqPayload)
    "units" unitId unitPayload

/-- The store left by the concrete course fetch the sequence-fetch witness
builds on: one sequence block holding its children ids and one unit block. -/
def seqFixtureStore : Store :=
  (fetchCourse [] "course-v1:edX+DemoX+Demo_Course"
    (Outcome.fulfilled [("title", Value.vStr "Demonstration Course")])
    (Outcome.fulfilled
      [("sequences", "block-seq1",
         [("id", Value.vStr "block-seq1"), ("children", Value.vIds ["block-unit1"])]),
       ("units", "block-unit1", [("id", Value.vStr "block-unit1")])])).2.1

/-- Sequence-metadata detail payload of the sequence-fetch witness. -/
def seqDetailPayload : Record :=
  [("gatedContent", Value.vObj [("gated", Value.vBool false)]),
   ("activeUnitIndex", Value.vNat 0)]

/-- Unit user-state payload of the sequence-fetch witness. -/
def unitStatePayload : Record :=
  [("complete", Value.vNull), ("bookmarked", Value.vBool false)]

/-! ## Lookup characterizations of the store operations -/

theorem oOr_none_right {α : Type} (a : Option α) : oOr a none = a := by
  cases a <;> rfl

theorem oOr_self_left {α : Type} (a b : Option α) : oOr a (oOr a b) = oOr a b := by
  cases a <;> rfl

theorem lookupF_append {α : Type} (a b : List (String × α)) (k : String) :
    lookupF (a ++ b) k = oOr (lookupF a k) (lookupF b k) := by
  induction a with
  | nil => rfl
  | cons kv tl ih =>
    by_cases h : kv.1 = k
    · simp [lookupF, h, oOr]
    · simp [lookupF, h, ih]

theorem lookupF_map_key {α β : Type} (l : List (String × α)) (g : String → α → β)
    (k : String) :
    lookupF (l.map (fun kv => (kv.1, g kv.1 kv.2))) k = (lookupF l k).map (g k) := by
  induction l with
  | nil => rfl
  | cons kv tl ih =>
    by_cases h : kv.1 = k
    · simp [lookupF, h]
    · simp [lookupF, h, ih]

theorem lookupF_filter_key {α : Type} (l : List (String × α)) (p : String → Bool)
    (k : String) :
    lookupF (l.filter (fun kv => p kv.1)) k =
      if p k then lookupF l k else none := by
  induction l with
  | nil => simp [lookupF]
  | cons kv tl ih =>
    by_cases h : kv.1 = k
    · cases hp : p kv.1 <;> simp [List.filter, hp, lookupF, h, ih, h ▸ hp]
    · cases hp : p kv.1 <;> simp [List.filter, hp, lookupF, h, ih]

theorem lookupF_mergeRecord (old new : Record) (k : String) :
    lookupF (mergeRecord old new) k = oOr (lookupF new k) (lookupF old k) := by
  unfold mergeRecord
  rw [lookupF_append, lookupF_map_key old (fun key v => (lookupF new key).getD v),
    lookupF_filter_key new (fun key => (lookupF old key).isNone)]
  cases ho : lookupF old k <;> cases hn : lookupF new k <;> simp [oOr, ho, hn]

theorem lookupF_upsert {α : Type} (l : List (String × α)) (key : String)
    (f : Option α → α) (k : String) :
    lookupF (upsert l key f) k =
      if k = key then some (f (lookupF l key)) else lookupF l k := by
  induction l with
  | nil =>
    by_cases h : k = key
    · simp [upsert, lookupF, h]
    · have h2 : ¬ key = k := fun hh => h hh.symm
      simp [upsert, lookupF, h, h2]
  | cons kv tl ih =>
    by_cases h1 : kv.1 = key
    · by_cases h2 : k = key
      · simp [upsert, lookupF, h1, h2, h2 ▸ h1]
      · have h3 : ¬ key = k := fun hh => h2 hh.symm
        simp [upsert, lookupF, h1, h2, h3]
    · by_cases h2 : kv.1 = k
      · have hk : ¬ k = key := fun hh => h1 (h2.trans hh)
        simp [upsert, lookupF, h1, h2, hk]
      · simp [upsert, lookupF, h1, h2, ih]

theorem lookupF_getD_nil {α : Type} (o : Option (List (String × α))) (k : String) :
    lookupF (o.getD []) k = o.bind (fun l => lookupF l k) := by
  cases o <;> rfl

theorem getEntity_mergeEntity (s : Store) (t i : String) (p : Record) (u j : String) :
    getEntity (mergeEntity s t i p) u j =
      if u = t ∧ j = i then some (mergeRecord ((getEntity s t i).getD []) p)
      else getEntity s u j := by
  by_cases hu : u = t <;> by_cases hj : j = i <;>
    simp [getEntity, mergeEntity, lookupF_upsert, lookupF_getD_nil, hu, hj]

theorem getField_mergeEntity (s : Store) (t i : String) (p : Record)
    (u j k : String) :
    getField (mergeEntity s t i p) u j k =
      if u = t ∧ j = i then oOr (lookupF p k) (getField s t i k)
      else getField s u j k := by
  by_cases hu : u = t <;> by_cases hj : j = i <;>
    simp [getField, getEntity_mergeEntity, lookupF_mergeRecord, lookupF_getD_nil,
      hu, hj]

/-! ## Claims about fetchTab and resetDeadlines (src/course-home/data/thunks.js) -/

/-- Claim C2: for every fetch orchestration, the pending dispatch is the one
synchronous event, emitted before any request settles; exactly one terminal
status dispatch occurs in the whole run, it lies in the deferred continuation
that runs only after both requests settle, and the status after the full trace
is `loaded` or `failed` — a finished fetch is never left `pending`. -/
theorem fetchTab_lifecycle (courseId tab : String)
    (metadataResult tabDataResult : Outcome Record) :
    (fetchTab courseId tab metadataResult tabDataResult).syncEvents
        = [Event.fetchTabRequest courseId]
    ∧ ((fetchTab courseId tab metadataResult tabDataResult).allEvents.countP
        Event.isTerminalStatus) = 1
    ∧ ((fetchTab courseId tab metadataResult tabDataResult).syncEvents.countP
        Event.isTerminalStatus) = 0
    ∧ ((fetchTab courseId tab metadataResult tabDataResult).deferredEvents.countP
        Event.isTerminalStatus) = 1
    ∧ runStatus (fetchTab courseId tab metadataResult tabDataResult).allEvents
        ≠ FetchStatus.pending
    ∧ (runStatus (fetchTab courseId tab metadataResult tabDataResult).allEvents
          = FetchStatus.loaded
        ∨ runStatus (fetchTab courseId tab metadataResult tabDataResult).allEvents
          = FetchStatus.failed) := by
  cases metadataResult <;> cases tabDataResult <;>
    simp [fetchTab, ThunkRun.allEvents, runStatus, statusStep,
      Event.isTerminalStatus, Outcome.isFulfilled]

/-- Claim C9: the promise returned by the dispatched `fetchTab` thunk resolves
right after the pending dispatch: the synchronous segment of the run is exactly
the pending dispatch, and every store write and the terminal status dispatch
sit in the detached continuation the caller never awaits. -/
theorem fetchTab_resolvesBeforeSettlement (courseId tab : String)
    (metadataResult tabDataResult : Outcome Record) :
    (fetchTab courseId tab metadataResult tabDataResult).syncEvents
        = [Event.fetchTabRequest courseId]
    ∧ ((fetchTab courseId tab metadataResult tabDataResult).syncEvents.countP
        Event.isStoreWrite) = 0
    ∧ ((fetchTab courseId tab metadataResult tabDataResult).syncEvents.countP
        Event.isTerminalStatus) = 0
    ∧ ((fetchTab courseId tab metadataResult tabDataResult).allEvents.countP
          Event.isStoreWrite)
        = ((fetchTab courseId tab metadataResult tabDataResult).deferredEvents.countP
          Event.isStoreWrite)
    ∧ ((fetchTab courseId tab metadataResult tabDataResult).deferredEvents.countP
        Event.isTerminalStatus) = 1 := by
  cases metadataResult <;> cases tabDataResult <;>
    simp [fetchTab, ThunkRun.allEvents, Event.isTerminalStatus,
      Event.isStoreWrite, Outcome.isFulfilled]

/-- Claim C1: if either of `fetchTab`'s two concurrent requests rejects, the
terminal status for the resource is `failed`, however the sibling fared, and
the logging collaborator receives the failed request's error at least once. -/
theorem fetchTab_failureClassifiedFailed (courseId tab e : String)
    (metadataResult tabDataResult : Outcome Record)
    (h : metadataResult = Outcome.rejected e ∨ tabDataResult = Outcome.rejected e) :
    runStatus (fetchTab courseId tab metadataResult tabDataResult).allEvents
        = FetchStatus.failed
    ∧ Event.logError e
        ∈ (fetchTab courseId tab metadataResult tabDataResult).deferredEvents
    ∧ 1 ≤ ((fetchTab courseId tab metadataResult tabDataResult).allEvents.countP
        Event.isLogCall) := by
  rcases h with h | h <;> subst h
  · cases tabDataResult <;>
      simp [fetchTab, ThunkRun.allEvents, runStatus, statusStep,
        Event.isLogCall, Outcome.isFulfilled]
  · cases metadataResult <;>
      simp [fetchTab, ThunkRun.allEvents, runStatus, statusStep,
        Event.isLogCall, Outcome.isFulfilled]

/-- Witness for C1 at a concrete input: metadata rejects with a network error
while the tab data request fulfills. -/
theorem fetchTab_failureClassifiedFailed_witness :
    runStatus (fetchTab "course-v1:edX+DemoX+Demo_Course" "dates"
        (Outcome.rejected "Network Error") (Outcome.fulfilled [])).allEvents
        = FetchStatus.failed
    ∧ Event.logError "Network Error"
        ∈ (fetchTab "course-v1:edX+DemoX+Demo_Course" "dates"
            (Outcome.rejected "Network Error") (Outcome.fulfilled [])).deferredEvents
    ∧ 1 ≤ ((fetchTab "course-v1:edX+DemoX+Demo_Course" "dates"
        (Outcome.rejected "Network Error") (Outcome.fulfilled [])).allEvents.countP
        Event.isLogCall) :=
  fetchTab_failureClassifiedFailed "course-v1:edX+DemoX+Demo_Course" "dates"
    "Network Error" (Outcome.rejected "Network Error") (Outcome.fulfilled [])
    (Or.inl rfl)

/-- Claim C4: in a partial failure, the fulfilled request's payload is still
written to the store while the rejected one yields exactly a log call and no
store write: the deferred trace is, in either order of failure, one `addModel`
for the fulfilled payload, one `logError` with the rejection reason, and the
`failed` terminal dispatch; applying the trace to any store performs exactly
the fulfilled payload's merge. -/
theorem fetchTab_partialFailureSiblingEffects (courseId tab e : String)
    (v : Record) (s : Store) :
    (fetchTab courseId tab (Outcome.fulfilled v) (Outcome.rejected e)).deferredEvents
        = [Event.addModel "courses" (mergeRecord [("id", Value.vStr courseId)] v),
           Event.logError e, Event.fetchTabFailure courseId]
    ∧ (fetchTab courseId tab (Outcome.rejected e) (Outcome.fulfilled v)).deferredEvents
        = [Event.logError e,
           Event.addModel tab (mergeRecord [("id", Value.vStr courseId)] v),
           Event.fetchTabFailure courseId]
    ∧ applyEvents s
          (fetchTab courseId tab (Outcome.fulfilled v) (Outcome.rejected e)).deferredEvents
        = mergeEntity s "courses"
            (modelId (mergeRecord [("id", Value.vStr courseId)] v))
            (mergeRecord [("id", Value.vStr courseId)] v)
    ∧ applyEvents s
          (fetchTab courseId tab (Outcome.rejected e) (Outcome.fulfilled v)).deferredEvents
        = mergeEntity s tab
            (modelId (mergeRecord [("id", Value.vStr courseId)] v))
            (mergeRecord [("id", Value.vStr courseId)] v) := by
  simp [fetchTab, applyEvents, applyEvent, Outcome.isFulfilled]

/-- Claim C10: `resetDeadlines` dispatches the refetch thunk exactly when the
deadlines update fulfills; on rejection the run has no events at all — no
refetch dispatch, no log call, no status transition — and leaves any store
unchanged. -/
theorem resetDeadlines_refetchOnlyOnFulfill (courseId e : String) (s : Store) :
    (resetDeadlines courseId (Outcome.fulfilled ())).allEvents
        = [Event.dispatchGetTabData courseId]
    ∧ (resetDeadlines courseId (Outcome.rejected e)).allEvents = []
    ∧ ((resetDeadlines courseId (Outcome.rejected e)).allEvents.countP
        Event.isLogCall) = 0
    ∧ ((resetDeadlines courseId (Outcome.rejected e)).allEvents.countP
        Event.isTerminalStatus) = 0
    ∧ applyEvents s (resetDeadlines courseId (Outcome.rejected e)).allEvents = s := by
  simp [resetDeadlines, ThunkRun.allEvents, applyEvents]

/-- Counterexample to claim C7 as stated: at the concrete input where
`updateCourseDeadlines` rejects with a network error, `resetDeadlines` emits
no events whatsoever — in particular the request-level failure is converted
into neither a `logError` call nor a `failed` status dispatch. -/
theorem resetDeadlines_dropsFailureSilently :
    (resetDeadlines "course-v1:edX+DemoX+Demo_Course"
        (Outcome.rejected "Network Error")).allEvents.length = 0
    ∧ ((resetDeadlines "course-v1:edX+DemoX+Demo_Course"
        (Outcome.rejected "Network Error")).allEvents.countP Event.isLogCall) = 0
    ∧ ((resetDeadlines "course-v1:edX+DemoX+Demo_Course"
        (Outcome.rejected "Network Error")).allEvents.countP
        Event.isTerminalStatus) = 0 := by
  refine ⟨rfl, rfl, rfl⟩

/-- Claim C7 as amended: failures never escape the dispatched call, and in
`fetchTab` every request rejection is converted into a `logError` call with
the original reason plus a `failed` terminal status; but `resetDeadlines`
silently drops a rejection of its update request — no log call, no status
dispatch. -/
theorem thunks_failureConversion (courseId tab e : String)
    (metadataResult tabDataResult : Outcome Record)
    (h : metadataResult = Outcome.rejected e ∨ tabDataResult = Outcome.rejected e) :
    Event.logError e
        ∈ (fetchTab courseId tab metadataResult tabDataResult).allEvents
    ∧ Event.fetchTabFailure courseId
        ∈ (fetchTab courseId tab metadataResult tabDataResult).allEvents
    ∧ runStatus (fetchTab courseId tab metadataResult tabDataResult).allEvents
        = FetchStatus.failed
    ∧ ((resetDeadlines courseId (Outcome.rejected e)).allEvents.countP
        Event.isLogCall) = 0
    ∧ ((resetDeadlines courseId (Outcome.rejected e)).allEvents.countP
        Event.isTerminalStatus) = 0 := by
  rcases h with h | h <;> subst h
  · cases tabDataResult <;>
      simp [fetchTab, resetDeadlines, ThunkRun.allEvents, runStatus, statusStep,
        Event.isLogCall, Event.isTerminalStatus, Outcome.isFulfilled]
  · cases metadataResult <;>
      simp [fetchTab, resetDeadlines, ThunkRun.allEvents, runStatus, statusStep,
        Event.isLogCall, Event.isTerminalStatus, Outcome.isFulfilled]

/-- Witness for the amended C7 at a concrete input: the tab data request
rejects while the metadata request fulfills. -/
theorem thunks_failureConversion_witness :
    Event.logError "Request failed with status code 404"
        ∈ (fetchTab "course-v1:edX+DemoX+Demo_Course" "outline"
            (Outcome.fulfilled [])
            (Outcome.rejected "Request failed with status code 404")).allEvents
    ∧ Event.fetchTabFailure "course-v1:edX+DemoX+Demo_Course"
        ∈ (fetchTab "course-v1:edX+DemoX+Demo_Course" "outline"
            (Outcome.fulfilled [])
            (Outcome.rejected "Request failed with status code 404")).allEvents
    ∧ runStatus (fetchTab "course-v1:edX+DemoX+Demo_Course" "outline"
            (Outcome.fulfilled [])
            (Outcome.rejected "Request failed with status code 404")).allEvents
        = FetchStatus.failed
    ∧ ((resetDeadlines "course-v1:edX+DemoX+Demo_Course"
        (Outcome.rejected "Request failed with status code 404")).allEvents.countP
        Event.isLogCall) = 0
    ∧ ((resetDeadlines "course-v1:edX+DemoX+Demo_Course"
        (Outcome.rejected "Request failed with status code 404")).allEvents.countP
        Event.isTerminalStatus) = 0 :=
  thunks_failureConversion "course-v1:edX+DemoX+Demo_Course" "outline"
    "Request failed with status code 404" (Outcome.fulfilled [])
    (Outcome.rejected "Request failed with status code 404") (Or.inr rfl)

/-! ## Entity Store merge algebra -/

/-- Claim C5: Entity Store merge is idempotent field-by-field (merging the same
payload twice reads back as merging it once); merging payload `a` then `b`
reads as the field-union with `b` winning, then `a`, then the prior record; at
any field carried by at most one of the two payloads the read is independent
of the order in which they merged; and merge creates the record when it is
absent, never failing. -/
theorem mergeEntity_algebra (s : Store) (t i : String) (p a b : Record)
    (k : String) :
    getField (mergeEntity (mergeEntity s t i p) t i p) t i k
        = getField (mergeEntity s t i p) t i k
    ∧ getField (mergeEntity (mergeEntity s t i a) t i b) t i k
        = oOr (lookupF b k) (oOr (lookupF a k) (getField s t i k))
    ∧ ((lookupF a k).isNone = true ∨ (lookupF b k).isNone = true →
        getField (mergeEntity (mergeEntity s t i a) t i b) t i k
          = getField (mergeEntity (mergeEntity s t i b) t i a) t i k)
    ∧ (getEntity (mergeEntity s t i p) t i).isSome = true := by
  refine ⟨?_, ?_, ?_, ?_⟩
  · simp [getField_mergeEntity, oOr_self_left]
  · simp [getField_mergeEntity]
  · intro hd
    cases ha : lookupF a k <;> cases hb : lookupF b k <;>
      simp [getField_mergeEntity, oOr, ha, hb] <;>
      simp [ha, hb] at hd
  · simp [getEntity_mergeEntity]

/-- Claim C3: when the write request fails, the stored position is restored to
exactly the pre-mutation value and the error is logged; when it succeeds the
stored position equals the new value and nothing is logged — after settlement
the store holds either the confirmed new value or the original one. -/
theorem saveSequencePosition_roundTrip (s : Store) (courseId sequenceId e : String)
    (newValue p : Value)
    (h : getField s "sequences" sequenceId "position" = some p) :
    getField (saveSequencePosition s courseId sequenceId newValue
        (Outcome.fulfilled ())).1 "sequences" sequenceId "position" = some newValue
    ∧ getField (saveSequencePosition s courseId sequenceId newValue
        (Outcome.rejected e)).1 "sequences" sequenceId "position" = some p
    ∧ (saveSequencePosition s courseId sequenceId newValue
        (Outcome.rejected e)).2 = [e]
    ∧ (saveSequencePosition s courseId sequenceId newValue
        (Outcome.fulfilled ())).2 = [] := by
  refine ⟨?_, ?_, rfl, rfl⟩
  · simp [saveSequencePosition, getField_mergeEntity, lookupF, oOr]
  · simp [saveSequencePosition, getField_mergeEntity, lookupF, oOr, h]

/-- Witness for C3 at a concrete input: a store holding a sequence at position
5, saved to position 123, under both a rejected and a fulfilled POST. -/
theorem saveSequencePosition_roundTrip_witness :
    getField (saveSequencePosition
        (mergeEntity [] "sequences" "block-seq1"
          [("id", Value.vStr "block-seq1"), ("position", Value.vNat 5)])
        "course-v1:edX+DemoX+Demo_Course" "block-seq1" (Value.vNat 123)
        (Outcome.fulfilled ())).1 "sequences" "block-seq1" "position"
        = some (Value.vNat 123)
    ∧ getField (saveSequencePosition
        (mergeEntity [] "sequences" "block-seq1"
          [("id", Value.vStr "block-seq1"), ("position", Value.vNat 5)])
        "course-v1:edX+DemoX+Demo_Course" "block-seq1" (Value.vNat 123)
        (Outcome.rejected "Network Error")).1 "sequences" "block-seq1" "position"
        = some (Value.vNat 5)
    ∧ (saveSequencePosition
        (mergeEntity [] "sequences" "block-seq1"
          [("id", Value.vStr "block-seq1"), ("position", Value.vNat 5)])
        "course-v1:edX+DemoX+Demo_Course" "block-seq1" (Value.vNat 123)
        (Outcome.rejected "Network Error")).2 = ["Network Error"]
    ∧ (saveSequencePosition
        (mergeEntity [] "sequences" "block-seq1"
          [("id", Value.vStr "block-seq1"), ("position", Value.vNat 5)])
        "course-v1:edX+DemoX+Demo_Course" "block-seq1" (Value.vNat 123)
        (Outcome.fulfilled ())).2 = [] :=
  saveSequencePosition_roundTrip
    (mergeEntity [] "sequences" "block-seq1"
      [("id", Value.vStr "block-seq1"), ("position", Value.vNat 5)])
    "course-v1:edX+DemoX+Demo_Course" "block-seq1" "Network Error"
    (Value.vNat 123) (Value.vNat 5) (by rfl)

theorem getField_blockWrites (blocks : List BlockWrite) (s : Store) (u j k : String)
    (h : blocks.all (fun bw => bw.1 != u) = true) :
    getField (blocks.foldl (fun st bw => mergeEntity st bw.1 bw.2.1 bw.2.2) s) u j k
      = getField s u j k := by
  induction blocks generalizing s with
  | nil => rfl
  | cons bw tl ih =>
    rw [List.all_cons, Bool.and_eq_true] at h
    rw [List.foldl_cons, ih _ h.2,
      getField_mergeEntity, if_neg (fun hh => (bne_iff_ne.mp h.1) hh.1.symm)]

/-- Claim C6: when both requests fulfill but the metadata carries the
access-denial signal, the classification is `denied` — not `failed`, not
`loaded` — and the course entity is written all the same, its access-check
field holding the denying value. -/
theorem fetchCourse_denied (s : Store) (courseId : String) (meta : Record)
    (blocks : List BlockWrite)
    (hmeta : hasDeniedSignal meta = true)
    (hblocks : blocks.all (fun bw => bw.1 != "courses") = true) :
    (fetchCourse s courseId (Outcome.fulfilled meta) (Outcome.fulfilled blocks)).1
        = FetchStatus.denied
    ∧ getField
        (fetchCourse s courseId (Outcome.fulfilled meta) (Outcome.fulfilled blocks)).2.1
        "courses" courseId "canLoadCourseware"
        = lookupF meta "canLoadCourseware"
    ∧ (∃ v, lookupF meta "canLoadCourseware" = some v ∧ accessDeniedValue v = true) := by
  have hv : ∃ v, lookupF meta "canLoadCourseware" = some v
      ∧ accessDeniedValue v = true := by
    unfold hasDeniedSignal at hmeta
    cases hc : lookupF meta "canLoadCourseware" with
    | none => rw [hc] at hmeta; exact absurd hmeta (by simp)
    | some v => rw [hc] at hmeta; exact ⟨v, rfl, hmeta⟩
  refine ⟨by simp [fetchCourse, hmeta], ?_, hv⟩
  obtain ⟨v, hc, _⟩ := hv
  simp only [fetchCourse]
  rw [getField_blockWrites blocks _ _ _ _ hblocks,
    getField_mergeEntity, if_pos ⟨rfl, rfl⟩, lookupF_mergeRecord, hc]
  simp [lookupF, oOr]

/-- Witness for C6 at a concrete input: metadata whose canLoadCourseware field
denies access, alongside a fulfilled block tree of one sequence and one unit. -/
theorem fetchCourse_denied_witness :
    (fetchCourse [] "course-v1:edX+DemoX+Demo_Course"
        (Outcome.fulfilled
          [("canLoadCourseware", Value.vObj [("hasAccess", Value.vBool false)]),
           ("title", Value.vStr "Demonstration Course")])
        (Outcome.fulfilled
          [("sequences", "block-seq1",
             [("id", Value.vStr "block-seq1"), ("children", Value.vIds ["block-unit1"])]),
           ("units", "block-unit1", [("id", Value.vStr "block-unit1")])])).1
        = FetchStatus.denied
    ∧ getField
        (fetchCourse [] "course-v1:edX+DemoX+Demo_Course"
          (Outcome.fulfilled
            [("canLoadCourseware", Value.vObj [("hasAccess", Value.vBool false)]),
             ("title", Value.vStr "Demonstration Course")])
          (Outcome.fulfilled
            [("sequences", "block-seq1",
               [("id", Value.vStr "block-seq1"), ("children", Value.vIds ["block-unit1"])]),
             ("units", "block-unit1", [("id", Value.vStr "block-unit1")])])).2.1
        "courses" "course-v1:edX+DemoX+Demo_Course" "canLoadCourseware"
        = lookupF
            [("canLoadCourseware", Value.vObj [("hasAccess", Value.vBool false)]),
             ("title", Value.vStr "Demonstration Course")] "canLoadCourseware"
    ∧ (∃ v, lookupF
            [("canLoadCourseware", Value.vObj [("hasAccess", Value.vBool false)]),
             ("title", Value.vStr "Demonstration Course")] "canLoadCourseware"
          = some v ∧ accessDeniedValue v = true) :=
  fetchCourse_denied [] "course-v1:edX+DemoX+Demo_Course"
    [("canLoadCourseware", Value.vObj [("hasAccess", Value.vBool false)]),
     ("title", Value.vStr "Demonstration Course")]
    [("sequences", "block-seq1",
       [("id", Value.vStr "block-seq1"), ("children", Value.vIds ["block-unit1"])]),
     ("units", "block-unit1", [("id", Value.vStr "block-unit1")])]
    (by rfl) (by rfl)

/-- Claim C8: fetching a sequence after its course was fetched merges the
additional fields onto the already-existing sequence and unit records keyed by
their own ids — every field the sequence payload carries reads back with the
payload's value, every field the unit payload carries reads back likewise, and
every field the course fetch had set that the new payloads do not carry is
still present, unchanged. -/
theorem fetchSequence_mergesOntoCourseEntities (s : Store) (courseId : String)
    (metadataResult : Outcome Record) (blocksResult : Outcome (List BlockWrite))
    (sequenceId unitId : String) (seqPayload unitPayload : Record)
    (k ku : String) (v w : Value)
    (hk : getField (fetchCourse s courseId metadataResult blocksResult).2.1
        "sequences" sequenceId k = some v)
    (hknew : lookupF seqPayload k = none)
    (hku : getField (fetchCourse s courseId metadataResult blocksResult).2.1
        "units" unitId ku = some w)
    (hkunew : lookupF unitPayload ku = none) :
    getField (fetchSequenceApply
        (fetchCourse s courseId metadataResult blocksResult).2.1
        sequenceId seqPayload unitId unitPayload) "sequences" sequenceId k = some v
    ∧ getField (fetchSequenceApply
        (fetchCourse s courseId metadataResult blocksResult).2.1
        sequenceId seqPayload unitId unitPayload) "units" unitId ku = some w
    ∧ (∀ k2 v2, lookupF seqPayload k2 = some v2 →
        getField (fetchSequenceApply
          (fetchCourse s courseId metadataResult blocksResult).2.1
          sequenceId seqPayload unitId unitPayload) "sequences" sequenceId k2
          = some v2)
    ∧ (∀ k2 v2, lookupF unitPayload k2 = some v2 →
        getField (fetchSequenceApply
          (fetchCourse s courseId metadataResult blocksResult).2.1
          sequenceId seqPayload unitId unitPayload) "units" unitId k2
          = some v2) := by
  refine ⟨?_, ?_, ?_, ?_⟩
  · simp [fetchSequenceApply, getField_mergeEntity, hknew, hk, oOr]
  · simp [fetchSequenceApply, getField_mergeEntity, hkunew, hku, oOr]
  · intro k2 v2 h2
    simp [fetchSequenceApply, getField_mergeEntity, h2, oOr]
  · intro k2 v2 h2
    simp [fetchSequenceApply, getField_mergeEntity, h2, oOr]

/-- Witness for C8 at a concrete input: the fixture course fetch created the
sequence with its children list and the unit with its id; the sequence fetch
then adds gatedContent, activeUnitIndex, complete and bookmarked without
losing them. -/
theorem fetchSequence_mergesOntoCourseEntities_witness :
    getField (fetchSequenceApply seqFixtureStore "block-seq1" seqDetailPayload
        "block-unit1" unitStatePayload) "sequences" "block-seq1" "children"
        = some (Value.vIds ["block-unit1"])
    ∧ getField (fetchSequenceApply seqFixtureStore "block-seq1" seqDetailPayload
        "block-unit1" unitStatePayload) "units" "block-unit1" "id"
        = some (Value.vStr "block-unit1")
    ∧ (∀ k2 v2, lookupF seqDetailPayload k2 = some v2 →
        getField (fetchSequenceApply seqFixtureStore "block-seq1" seqDetailPayload
          "block-unit1" unitStatePayload) "sequences" "block-seq1" k2 = some v2)
    ∧ (∀ k2 v2, lookupF unitStatePayload k2 = some v2 →
        getField (fetchSequenceApply seqFixtureStore "block-seq1" seqDetailPayload
          "block-unit1" unitStatePayload) "units" "block-unit1" k2 = some v2) :=
  fetchSequence_mergesOntoCourseEntities [] "course-v1:edX+DemoX+Demo_Course"
    (Outcome.fulfilled [("title", Value.vStr "Demonstration Course")])
    (Outcome.fulfilled
      [("sequences", "block-seq1",
         [("id", Value.vStr "block-seq1"), ("children", Value.vIds ["block-unit1"])]),
       ("units", "block-unit1", [("id", Value.vStr "block-unit1")])])
    "block-seq1" "block-unit1" seqDetailPayload unitStatePayload
    "children" "id" (Value.vIds ["block-unit1"]) (Value.vStr "block-unit1")
    (by rfl) (by rfl) (by rfl) (by rfl)
